import Mathlib

/-!
Verification of the StudyBuddy AI LLM-orchestration layer.

This file gives a shallow embedding of the core logic of the repository
(`utils/formatters.py`, `utils/validators.py`, `utils/state.py`,
`prompts/templates.py`, `services/openrouter_client.py`,
`backend/controller.py`) and proves the specified properties about it.

Python strings are modelled as Lean `String`; the Python string
operations used by the code (`lstrip`, `strip`, `lower`, `title`,
`startswith`, `endswith`, the `in` substring test) are defined below on
the character list underlying the string, matching Python's semantics on
the character sets the code manipulates.
-/

namespace StudyBuddy

/-- Model of Python's `pat in s` prefix test at the current position:
`matchesAt pat l` is true when `pat` is a prefix of `l`. -/
def matchesAt : List Char → List Char → Bool
  | [], _ => true
  | _ :: _, [] => false
  | p :: ps, c :: cs => p == c && matchesAt ps cs

/-- Model of Python's substring containment over character lists. -/
def hasSub (pat : List Char) : List Char → Bool
  | [] => matchesAt pat []
  | c :: cs => matchesAt pat (c :: cs) || hasSub pat cs

/-- Model of Python's `pat in s` substring test. -/
def pyIn (pat s : String) : Bool := hasSub pat.data s.data

/-- Model of Python's `s.startswith(pat)`. -/
def pyStartswith (s pat : String) : Bool := matchesAt pat.data s.data

/-- Model of Python's `s.endswith(suf)`. -/
def pyEndswith (s suf : String) : Bool := matchesAt suf.data.reverse s.data.reverse

/-- Model of Python's `s.lstrip()`: drop leading whitespace. -/
def pyLstrip (s : String) : String := ⟨s.data.dropWhile Char.isWhitespace⟩

/-- Model of Python's `s.strip()`: drop leading and trailing whitespace. -/
def pyStrip (s : String) : String :=
  ⟨((s.data.dropWhile Char.isWhitespace).reverse.dropWhile Char.isWhitespace).reverse⟩

/-- Model of Python's `s.lower()` (ASCII case folding, which covers every
string the code compares). -/
def pyLower (s : String) : String := ⟨s.data.map Char.toLower⟩

/-- Helper for `pyTitle`: the boolean flag records whether the previous
character was non-alphabetic (so the next letter is uppercased). -/
def pyTitleAux : List Char → Bool → List Char
  | [], _ => []
  | c :: cs, afterSep =>
    (if c.isAlpha then (if afterSep then c.toUpper else c.toLower) else c)
      :: pyTitleAux cs (!c.isAlpha)

/-- Model of Python's `s.title()`. -/
def pyTitle (s : String) : String := ⟨pyTitleAux s.data true⟩

/-! ## `utils/formatters.py` -/

/-- Embedding of `ensure_markdown_headings` from `utils/formatters.py`:
if the text is empty return it; if it already starts (after `lstrip`)
with a heading marker return it; otherwise prepend a generic heading. -/
def ensure_markdown_headings (text : String) : String :=
  if text = "" then text
  else
    if pyStartswith (pyLstrip text) "#" then text
    else "### Answer\n\n" ++ text

/-! ## `utils/validators.py` -/

/-- A Python value passed to `validate_text_input`: `None`, a string, or
a non-string value (rejected by the `isinstance` check). -/
inductive PyVal where
  | vNone
  | vStr (s : String)
  | vOther
deriving DecidableEq

/-- Embedding of `validate_text_input` from `utils/validators.py`. -/
def validate_text_input (text : PyVal) (field_name : String) : Bool × String :=
  match text with
  | .vNone => (false, "Please provide " ++ field_name ++ ".")
  | .vOther => (false, "The " ++ field_name ++ " must be text.")
  | .vStr s =>
    if pyStrip s = "" then (false, "Please enter some " ++ field_name ++ ".")
    else if s.data.length > 8000 then
      (false, "The " ++ field_name ++ " is too long. Please shorten it a bit.")
    else (true, "")

/-- Embedding of `validate_image_file` from `utils/validators.py`; the
uploaded file is modelled by its `name` attribute (`none` = no upload). -/
def validate_image_file (file : Option String) : Bool × String :=
  match file with
  | none => (false, "Please upload an image first.")
  | some filename =>
    if !(pyEndswith (pyLower filename) ".jpg" || pyEndswith (pyLower filename) ".jpeg"
          || pyEndswith (pyLower filename) ".png") then
      (false, "Unsupported file type. Please upload a JPG or PNG image.")
    else (true, "")

/-- The string of 8001 `x` characters used by the validator test vector. -/
def xLong : String := ⟨List.replicate 8001 'x'⟩

/-- The string of 8001 space characters: an 8001-character input that the
validator rejects through the emptiness check, not the length check. -/
def spaceLong : String := ⟨List.replicate 8001 ' '⟩

/-! ## `services/openrouter_client.py` -/

/-- Embedding of the `LLMError` exception class: a message plus the
`is_model_error` flag used by the fallback loop. -/
structure LLMError where
  message : String
  is_model_error : Bool
deriving DecidableEq

deriving instance DecidableEq for Except

/-- The fixed fallback priority list `FALLBACK_MODELS`. -/
def FALLBACK_MODELS : List String :=
  ["xiaomi/mimo-v2-flash:free",
   "mistralai/devstral-2-2512:free",
   "tngtech/deepseek-r1t2-chimera:free"]

/-- The default model identifier `DEFAULT_MODEL`. -/
def DEFAULT_MODEL : String := "xiaomi/mimo-v2-flash:free"

/-- The accepted API-key prefix whitelist `valid_prefixes`. -/
def valid_prefixes : List String := ["sk-or-v1-", "sk-or-v1", "sk-"]

/-- The `LLMError` raised by the local API-key format check. -/
def format_error : LLMError :=
  { message := "Invalid API key format. OpenRouter API keys should start with 'sk-or-v1-' or 'sk-'. Please check your .env file and get a valid key from https://openrouter.ai/keys"
    is_model_error := false }

/-- The fixed message raised for HTTP status 401. -/
def auth_failed_message : String :=
  "Authentication failed. Your OpenRouter API key is invalid or expired. Please check your `.env` file and ensure the key starts with 'sk-or-v1-'. Get a new key at: https://openrouter.ai/keys"

/-- The fixed message raised for HTTP status 429. -/
def rate_limit_message : String :=
  "Rate limit exceeded. Please wait a moment and try again."

/-- The generic message substituted for upstream bodies mentioning
"key"/"api"/"auth". -/
def generic_auth_message : String :=
  "API authentication error. Please check your API key in the .env file."

/-- Embedding of the non-200 branch of `openrouter_chat` (lines 108-145):
given the HTTP status code and the error message extracted from the
response body, build the `LLMError` that is raised. -/
def handle_error_response (status_code : Nat) (error_msg : String) : LLMError :=
  if status_code = 401 then
    { message := auth_failed_message, is_model_error := false }
  else if status_code = 429 then
    { message := rate_limit_message, is_model_error := false }
  else
    let error_lower := pyLower error_msg
    let is_model_error :=
      pyIn "model" error_lower && (pyIn "not found" error_lower || pyIn "invalid" error_lower)
    let user_friendly_msg :=
      if pyIn "key" error_lower || pyIn "api" error_lower || pyIn "auth" error_lower then
        generic_auth_message
      else error_msg
    { message := "OpenRouter API error (status " ++ toString status_code ++ "): " ++ user_friendly_msg
      is_model_error := is_model_error }

/-- The outcome of the HTTP POST inside `openrouter_chat`, once the
request has completed: the status code, the error message extracted from
a non-200 body (lines 109-113), and for a 200 body the content of
`choices[0].message.content` (`none` = empty `choices` list; `some none`
= missing content). The connection-error/timeout branches (lines 99-106)
are not modelled; no claim concerns them. -/
structure HttpResp where
  status_code : Nat
  extracted_error : String
  first_choice_content : Option (Option String)

/-- Embedding of `openrouter_chat` from `services/openrouter_client.py`:
the local key checks, the empty-messages check, then the handling of the
completed HTTP response (`messages_nonempty` stands for `bool(messages)`). -/
def openrouter_chat (api_key : String) (messages_nonempty : Bool) (resp : HttpResp) :
    Except LLMError String :=
  if api_key = "" ∨ pyStrip api_key = "" then
    Except.error { message := "OpenRouter API key is required. Please set it in the .env file or environment variables.", is_model_error := false }
  else
    let api_key_clean := pyStrip api_key
    if !(valid_prefixes.any fun p => pyStartswith api_key_clean p) then
      Except.error format_error
    else if !messages_nonempty then
      Except.error { message := "Messages list is empty. Cannot generate a response.", is_model_error := false }
    else if resp.status_code ≠ 200 then
      Except.error (handle_error_response resp.status_code resp.extracted_error)
    else
      match resp.first_choice_content with
      | none => Except.error { message := "Received an empty response from OpenRouter.", is_model_error := false }
      | some none => Except.error { message := "Received an empty response from the LLM.", is_model_error := false }
      | some (some "") => Except.error { message := "Received an empty response from the LLM.", is_model_error := false }
      | some (some t) => Except.ok t

/-- Embedding of the fallback-plan construction in `generate_llm_response`
(lines 210-219): start from `[model]`; if the model is not in the fixed
list, extend with the whole list, otherwise append each fallback that
differs from the model and is not yet present. -/
def modelsToTry (model : String) : List String :=
  if !(FALLBACK_MODELS.contains model) then
    [model] ++ FALLBACK_MODELS
  else
    FALLBACK_MODELS.foldl
      (fun acc fb => if fb != model && !(acc.contains fb) then acc ++ [fb] else acc)
      [model]

/-- Embedding of the `for model_to_try in models_to_try` loop of
`generate_llm_response` (lines 221-241). `attempt m` is the outcome of
`openrouter_chat` for candidate model `m` (the messages, key, temperature
and token budget are fixed for the whole invocation). The result is
either the returned text or the `last_error` state at loop exit. -/
def tryLoop (attempt : String → Except LLMError String) (lastModel : String) :
    List String → Option LLMError → Option LLMError ⊕ String
  | [], last_error => Sum.inl last_error
  | m :: rest, _last_error =>
    match attempt m with
    | Except.ok raw => Sum.inr (ensure_markdown_headings raw)
    | Except.error exc =>
      if exc.is_model_error && m != lastModel then
        tryLoop attempt lastModel rest (some exc)
      else if !exc.is_model_error then
        Sum.inl (some exc)
      else
        tryLoop attempt lastModel rest (some exc)

/-- Embedding of `generate_llm_response` from
`services/openrouter_client.py` (re-exported by `model/llm_client.py`):
empty-prompt check, fallback-plan construction, the candidate loop, and
the composite error raised when the loop exits without success. The
message-array assembly (lines 192-208) only feeds `attempt` and is
abstracted into it. -/
def generate_llm_response (attempt : String → Except LLMError String)
    (model prompt : String) : Except LLMError String :=
  if prompt = "" ∨ pyStrip prompt = "" then
    Except.error { message := "Prompt is empty. Cannot generate a response.", is_model_error := false }
  else
    let models_to_try := modelsToTry model
    match tryLoop attempt (models_to_try.getLastD "") models_to_try none with
    | Sum.inr text => Except.ok text
    | Sum.inl (some last_error) =>
      Except.error { message := "Failed to generate response after trying " ++ toString models_to_try.length ++ " model(s). Last error: " ++ last_error.message, is_model_error := false }
    | Sum.inl none =>
      Except.error { message := "Failed to generate response from OpenRouter.", is_model_error := false }

/-! ## `prompts/templates.py` -/

/-- The "Explain" instruction block of `build_text_tutor_prompt`. -/
def explain_instruction : String :=
  "Explain the topic step by step in simple language. Use short sentences, everyday examples, and clear headings."

/-- Embedding of the `task_instructions` dictionary lookup
(`task_instructions.get(task, ...)` returns `none` on a missing key). -/
def task_instructions (task : String) : Option String :=
  if task = "Explain" then some explain_instruction
  else if task = "Examples" then
    some "Provide several practical examples that illustrate the main ideas. Start with very easy examples, then slightly harder ones."
  else if task = "Practice Questions" then
    some "Create 3–7 practice questions with answers and brief explanations. Include a mix of easy and moderate questions."
  else if task = "Quiz" then
    some "Create a short quiz of 5 questions. Show the correct answers and short explanations at the end."
  else if task = "Study Plan" then
    some "Create a clear, structured study plan with daily or weekly steps, estimated time, and learning goals for each step."
  else none

/-- One legacy history exchange (`{"user": ..., "assistant": ...}`). -/
structure Exchange where
  user : String
  assistant : String
deriving DecidableEq

/-- Labelled lines of one history exchange, as built by the loop body of
`_format_chat_history`. -/
def exchangeLines (e : Exchange) : List String :=
  (if e.user ≠ "" then ["Student: " ++ e.user] else [])
    ++ (if e.assistant ≠ "" then ["Tutor: " ++ e.assistant] else [])

/-- Embedding of `_format_chat_history` from `prompts/templates.py`:
format the last three exchanges as alternating labelled lines. -/
def format_chat_history (chat_history : List Exchange) : String :=
  if chat_history = [] then ""
  else
    let recent := chat_history.drop (chat_history.length - 3)
    String.intercalate "\n" (recent.flatMap exchangeLines)

/-- Embedding of `build_text_tutor_prompt` from `prompts/templates.py`. -/
def build_text_tutor_prompt (user_input student_level task_type : String)
    (chat_history : List Exchange) : String :=
  let level := pyStrip (if student_level = "" then "Beginner" else student_level)
  let task := pyStrip (if task_type = "" then "Explain" else task_type)
  let base_instructions :=
    "\nYou are **StudyBuddy AI**, a friendly and patient tutor helping a "
      ++ pyLower level ++ " student.\n\nStudent level: " ++ level
      ++ "\nRequested task type: " ++ task ++ "\n"
  let task_text := (task_instructions task).getD explain_instruction
  let history_text := format_chat_history chat_history
  let history_block :=
    if history_text ≠ "" then "Previous conversation:\n" ++ history_text ++ "\n\n" else ""
  base_instructions ++ "\n" ++ history_block ++ "Your job:\n" ++ task_text ++ "\n\n"
    ++ "Student's question or topic:\n" ++ user_input ++ "\n\n"
    ++ "Please respond in Markdown with:\n- Clear headings (### ...)\n- Bullet points for lists\n- Step-by-step explanations where helpful\n- A short recap section at the end titled 'Summary'\n"

/-- Embedding of `build_image_solver_prompt` from `prompts/templates.py`. -/
def build_image_solver_prompt (ocr_text : String) (is_question : Bool) : String :=
  let mode_text :=
    if is_question then
      "The text below is a question or problem that the student wants you to solve."
    else
      "The text below contains notes or textbook-style explanations that the student wants you to explain."
  let task_text :=
    if is_question then
      "1. Briefly restate what the question is asking.\n2. Solve it step by step, showing your reasoning.\n3. Explain each step in simple, beginner-friendly language.\n4. If there are formulas, name and explain them.\n5. Finish with a short recap of the main idea."
    else
      "1. Identify the main ideas and key concepts.\n2. Explain each part in simple, clear language.\n3. Use headings and bullet points to organize the explanation.\n4. Add a short recap of the big picture at the end."
  "You are **StudyBuddy AI**, a friendly tutor.\n\n" ++ mode_text
    ++ "\n\nHere is the text extracted from the student's image:\n-----\n" ++ ocr_text
    ++ "\n-----\n\nYour tasks:\n" ++ task_text
    ++ "\n\nRespond in Markdown with clear headings and bullet points."

/-! ## `utils/image_fetcher.py` -/

/-- The fixed keyword list of `detect_image_request`. -/
def image_keywords : List String :=
  ["show me an image", "show me a picture", "show me a photo",
   "give me an image", "give me a picture", "give me a photo",
   "display an image", "display a picture", "display a photo",
   "image of", "picture of", "photo of",
   "show image", "show picture", "show photo",
   "provide me image", "provide me a image",
   "send me image", "send me a image"]

/-- Embedding of `detect_image_request` from `utils/image_fetcher.py`. -/
def detect_image_request (user_text : String) : Bool :=
  if user_text = "" then false
  else
    let text_lower := pyLower user_text
    image_keywords.any fun keyword => pyIn keyword text_lower

/-! ## `utils/state.py` and `backend/controller.py` -/

/-- A ChatGPT-style message as stored by `add_message` in `utils/state.py`;
the `images` key is present only when a non-empty image list is given. -/
structure Msg where
  role : String
  content : String
  images : Option (List String)
deriving DecidableEq

/-- Embedding of `add_message` from `utils/state.py`: append one message
to the session message list, attaching `images` only when truthy. -/
def add_message (msgs : List Msg) (role content : String)
    (images : Option (List String)) : List Msg :=
  msgs ++ [{ role := role, content := content,
             images := match images with
               | some l => if l = [] then none else some l
               | none => none }]

/-- One user-visible effect performed by a controller flow: a warning, an
error message, a call into the Model Gateway (`generate_llm_response`),
or a rendered markdown section. -/
inductive Effect where
  | warn (msg : String)
  | err (msg : String)
  | modelCall (prompt : String)
  | showSection (title text : String)
deriving DecidableEq

/-- Embedding of the error-to-user-message mapping repeated in the
controller's `except` blocks (`"401" in error_msg or "authentication" ...`). -/
def classifyUiError (error_msg : String) : String :=
  if pyIn "401" error_msg || pyIn "authentication" (pyLower error_msg)
      || pyIn "invalid" (pyLower error_msg) then
    "❌ Authentication failed. Please check your API key in the .env file."
  else
    "❌ Something went wrong while talking to the AI. Please try again."

/-- The data record returned by `ui.render_text_chat_tab`. -/
structure ChatUi where
  clear_clicked : Bool
  user_input : Option String
  student_level : String
  task_type : String

/-- The external collaborators of the text-chat flow: the regex-based
query extraction (`extract_query`), the image lookup (`fetch_images`),
and the Model Gateway outcome per prompt (abstracting
`generate_llm_response`, which is verified separately above). -/
structure ChatOracles where
  extractQuery : String → String
  fetchImages : String → List String × String
  llm : String → Except LLMError String

/-- The observable outcome of one `_handle_text_chat_tab` invocation:
the two history stores, the emitted effects, and whether the invocation
reached the `st.rerun()` at the end of a processed turn (`completed`). -/
structure ChatOutcome where
  messages : List Msg
  chat_history : List Exchange
  effects : List Effect
  cleared : Bool
  completed : Bool

/-- Embedding of `_handle_text_chat_tab` from `backend/controller.py`
(lines 67-185), with collaborators supplied as oracles. -/
def handle_text_chat_tab (ui : ChatUi) (o : ChatOracles)
    (messages : List Msg) (chat_history : List Exchange) : ChatOutcome :=
  if ui.clear_clicked then
    { messages := [], chat_history := [], effects := [], cleared := true, completed := false }
  else
    match ui.user_input with
    | none =>
      { messages := messages, chat_history := chat_history, effects := [],
        cleared := false, completed := false }
    | some user_input =>
      if user_input = "" then
        { messages := messages, chat_history := chat_history, effects := [],
          cleared := false, completed := false }
      else
        let v := validate_text_input (PyVal.vStr user_input) "question/topic"
        if !v.1 then
          { messages := messages, chat_history := chat_history, effects := [Effect.warn v.2],
            cleared := false, completed := false }
        else
          let messages1 := add_message messages "user" user_input none
          if detect_image_request user_input then
            let query := o.extractQuery user_input
            let fi := o.fetchImages query
            let image_urls := fi.1
            let source := fi.2
            if image_urls ≠ [] then
              let info_prompt :=
                "Provide a brief (2-3 sentence) informative response about: " ++ query
                  ++ ". Keep it concise since images will also be shown."
              let text_response :=
                match o.llm info_prompt with
                | Except.ok t => t
                | Except.error _ => "Here are images related to " ++ query ++ "."
              let source_note :=
                if source ≠ "none" then "\n\n*Images from " ++ pyTitle source ++ "*" else ""
              let response_content := text_response ++ source_note
              { messages := add_message messages1 "assistant" response_content (some image_urls)
                chat_history := chat_history
                effects := [Effect.modelCall info_prompt]
                cleared := false, completed := true }
            else
              let messages2 := add_message messages1 "assistant"
                "I couldn't find images for your request. Let me provide a text explanation instead." none
              let prompt := build_text_tutor_prompt user_input ui.student_level ui.task_type chat_history
              match o.llm prompt with
              | Except.ok response =>
                { messages := add_message messages2 "assistant" response none
                  chat_history := chat_history
                  effects := [Effect.modelCall prompt]
                  cleared := false, completed := true }
              | Except.error e =>
                { messages := messages2
                  chat_history := chat_history
                  effects := [Effect.modelCall prompt, Effect.err (classifyUiError e.message)]
                  cleared := false, completed := false }
          else
            let prompt := build_text_tutor_prompt user_input ui.student_level ui.task_type chat_history
            match o.llm prompt with
            | Except.error e =>
              { messages := messages1
                chat_history := chat_history
                effects := [Effect.modelCall prompt, Effect.err (classifyUiError e.message)]
                cleared := false, completed := false }
            | Except.ok response =>
              { messages := add_message messages1 "assistant" response none
                chat_history := chat_history ++ [{ user := user_input, assistant := response }]
                effects := [Effect.modelCall prompt]
                cleared := false, completed := true }

/-- The data record returned by `ui.render_image_solver_tab`; the
uploaded file is modelled by its filename. -/
structure SolverUi where
  uploaded_file : Option String
  is_question : Bool
  solve_clicked : Bool

/-- The collaborators of the image-solver flow: the OCR outcome
(exception message or extracted text) and the Model Gateway outcome. -/
structure SolverOracles where
  ocr : Except String String
  llm : String → Except LLMError String

/-- Embedding of `_handle_image_solver_tab` from `backend/controller.py`
(lines 188-233), returning the sequence of user-visible effects. -/
def handle_image_solver_tab (ui : SolverUi) (o : SolverOracles) : List Effect :=
  if !ui.solve_clicked then []
  else
    let v := validate_image_file ui.uploaded_file
    if !v.1 then [Effect.warn v.2]
    else
      match o.ocr with
      | Except.error e => [Effect.err ("❌ Could not read the image: " ++ e)]
      | Except.ok ocr_text =>
        if ocr_text = "" ∨ pyStrip ocr_text = "" then
          [Effect.warn "I couldn't detect any readable text in the image. Please try a clearer photo."]
        else
          let prompt := build_image_solver_prompt ocr_text ui.is_question
          match o.llm prompt with
          | Except.error e => [Effect.modelCall prompt, Effect.err (classifyUiError e.message)]
          | Except.ok response =>
            [Effect.modelCall prompt,
             Effect.showSection "📝 Explanation"
               ("### Extracted Text\n\n" ++ ocr_text ++ "\n\n---\n\n### AI Explanation\n\n" ++ response)]

/-! ## Helper lemmas about the string primitives -/

theorem str_ext {a b : String} (h : a.data = b.data) : a = b := by
  cases a; cases b; cases h; rfl

theorem str_data_append (a b : String) : (a ++ b).data = a.data ++ b.data := rfl

theorem str_append_assoc (a b c : String) : a ++ b ++ c = a ++ (b ++ c) := by
  apply str_ext
  simp only [str_data_append, List.append_assoc]

theorem str_append_ne_empty_left (a b : String) (h : a ≠ "") : a ++ b ≠ "" := by
  intro hab
  apply h
  apply str_ext
  have hd : a.data ++ b.data = ([] : List Char) := by
    rw [← str_data_append, hab]
  simpa using (List.append_eq_nil.mp hd).1

theorem matchesAt_self_append (p r : List Char) : matchesAt p (p ++ r) = true := by
  induction p with
  | nil => rfl
  | cons c cs ih => simp [matchesAt, ih]

theorem hasSub_nil (l : List Char) : hasSub [] l = true := by
  induction l with
  | nil => rfl
  | cons c cs ih => simp [hasSub, matchesAt]

theorem hasSub_self_append (p r : List Char) : hasSub p (p ++ r) = true := by
  cases p with
  | nil => exact hasSub_nil r
  | cons c cs =>
    have h := matchesAt_self_append (c :: cs) r
    rw [List.cons_append] at h
    simp [hasSub, h]

theorem hasSub_append_left (pat pre l : List Char) (h : hasSub pat l = true) :
    hasSub pat (pre ++ l) = true := by
  induction pre with
  | nil => simpa using h
  | cons c cs ih => simp [hasSub, ih]

theorem pyIn_sandwich (pat pre post : String) : pyIn pat (pre ++ (pat ++ post)) = true := by
  show hasSub pat.data (pre ++ (pat ++ post)).data = true
  rw [str_data_append, str_data_append]
  exact hasSub_append_left _ _ _ (hasSub_self_append _ _)

theorem pyIn_append_str (pat pre l : String) (h : pyIn pat l = true) :
    pyIn pat (pre ++ l) = true := by
  show hasSub pat.data (pre ++ l).data = true
  rw [str_data_append]
  exact hasSub_append_left _ _ _ h

theorem matchesAt_of_append (p q l : List Char) (h : matchesAt (p ++ q) l = true) :
    matchesAt p l = true := by
  induction p generalizing l with
  | nil => rfl
  | cons c cs ih =>
    cases l with
    | nil => simp [matchesAt] at h
    | cons d ds =>
      simp only [List.cons_append, matchesAt, Bool.and_eq_true] at h ⊢
      exact ⟨h.1, ih ds h.2⟩

theorem head?_append (l1 l2 : List Char) :
    (l1 ++ l2).head? = match l1 with | [] => l2.head? | a :: _ => some a := by
  cases l1 <;> rfl

/-! ## Lemmas about the Response Normalizer -/

theorem ensure_prepend_starts (x : String) :
    pyStartswith (pyLstrip ("### Answer\n\n" ++ x)) "#" = true := by
  have h3 : ("### Answer\n\n" : String).data = '#' :: ("## Answer\n\n" : String).data := by decide
  show matchesAt ("#" : String).data
      (List.dropWhile Char.isWhitespace ("### Answer\n\n" ++ x).data) = true
  rw [str_data_append, h3, List.cons_append, List.dropWhile_cons]
  simp [matchesAt, show Char.isWhitespace '#' = false from rfl]

/-- C6 (confirmed): `ensure_markdown_headings` is idempotent — applying
it twice yields the same string as applying it once, for every string. -/
theorem ensure_markdown_headings_idempotent (x : String) :
    ensure_markdown_headings (ensure_markdown_headings x) = ensure_markdown_headings x := by
  by_cases h1 : x = ""
  · simp [ensure_markdown_headings, h1]
  · by_cases h2 : pyStartswith (pyLstrip x) "#" = true
    · have hx : ensure_markdown_headings x = x := by
        simp [ensure_markdown_headings, h1, h2]
      simp [hx]
    · have hx : ensure_markdown_headings x = "### Answer\n\n" ++ x := by
        simp [ensure_markdown_headings, h1, h2]
      rw [hx]
      have hne : ("### Answer\n\n" ++ x) ≠ "" :=
        str_append_ne_empty_left _ _ (by decide)
      simp [ensure_markdown_headings, hne, ensure_prepend_starts x]

/-! ## Lemmas about the fallback plan -/

theorem modelsToTry_eq (M : String) :
    modelsToTry M = M :: FALLBACK_MODELS.filter (fun m => m != M) := by
  by_cases h1 : M = "xiaomi/mimo-v2-flash:free"
  · subst h1; decide
  · by_cases h2 : M = "mistralai/devstral-2-2512:free"
    · subst h2; decide
    · by_cases h3 : M = "tngtech/deepseek-r1t2-chimera:free"
      · subst h3; decide
      · have b1 : (M == "xiaomi/mimo-v2-flash:free") = false := by
          simp [beq_iff_eq, h1]
        have b2 : (M == "mistralai/devstral-2-2512:free") = false := by
          simp [beq_iff_eq, h2]
        have b3 : (M == "tngtech/deepseek-r1t2-chimera:free") = false := by
          simp [beq_iff_eq, h3]
        have hc : FALLBACK_MODELS.contains M = false := by
          simp [FALLBACK_MODELS, List.contains, List.elem, b1, b2, b3]
        have n1 : (("xiaomi/mimo-v2-flash:free" : String) != M) = true :=
          bne_iff_ne.mpr fun he => h1 he.symm
        have n2 : (("mistralai/devstral-2-2512:free" : String) != M) = true :=
          bne_iff_ne.mpr fun he => h2 he.symm
        have n3 : (("tngtech/deepseek-r1t2-chimera:free" : String) != M) = true :=
          bne_iff_ne.mpr fun he => h3 he.symm
        rw [modelsToTry, hc]
        simp [FALLBACK_MODELS, List.filter_cons, n1, n2, n3]

theorem modelsToTry_nodup (M : String) : (modelsToTry M).Nodup := by
  rw [modelsToTry_eq]
  refine List.Nodup.cons ?_ (List.Nodup.filter _ (by decide))
  intro hmem
  have := (List.mem_filter.mp hmem).2
  simp [bne] at this

theorem getLastD_mem (l : List String) (h : l ≠ []) (d : String) : l.getLastD d ∈ l := by
  induction l generalizing d with
  | nil => exact absurd rfl h
  | cons a as ih =>
    rw [List.getLastD_cons]
    cases has : as with
    | nil => simp [has, List.getLastD]
    | cons b bs =>
      subst has
      exact List.mem_cons_of_mem a (ih (by simp) a)

theorem modelsToTry_head_ne_last (M : String) (tail : List String)
    (hplan : modelsToTry M = M :: tail) (hne : tail ≠ []) :
    ((M : String) != (modelsToTry M).getLastD "") = true := by
  have hnd := modelsToTry_nodup M
  rw [hplan] at hnd ⊢
  rw [List.getLastD_cons]
  have hmem : tail.getLastD M ∈ tail := getLastD_mem tail hne M
  have hnotin : M ∉ tail := (List.nodup_cons.mp hnd).1
  have : M ≠ tail.getLastD M := fun he => hnotin (he ▸ hmem)
  exact bne_iff_ne.mpr this

/-- C3 (confirmed): for every requested model `M` the fallback plan
starts with `M`, contains each model exactly once, includes every
priority-list model other than `M`, and its remainder is exactly the
priority list with `M` filtered out, in priority-list order. -/
theorem fallback_plan_spec (M : String) :
    (modelsToTry M).head? = some M ∧
    (modelsToTry M).Nodup ∧
    (∀ m ∈ FALLBACK_MODELS, m ∈ modelsToTry M) ∧
    (modelsToTry M).tail = FALLBACK_MODELS.filter (fun m => m != M) := by
  refine ⟨?_, modelsToTry_nodup M, ?_, ?_⟩
  · rw [modelsToTry_eq]; rfl
  · intro m hm
    rw [modelsToTry_eq]
    by_cases hmM : m = M
    · exact hmM ▸ List.mem_cons_self _ _
    · exact List.mem_cons_of_mem _ (List.mem_filter.mpr ⟨hm, bne_iff_ne.mpr hmM⟩)
  · rw [modelsToTry_eq]; rfl

/-! ## The fallback loop (C1, C4) -/

theorem nonblank_cond (s : String) (hp : pyStrip s ≠ "") :
    ¬(s = "" ∨ pyStrip s = "") := by
  rintro (h1 | h1)
  · exact hp (by rw [h1]; decide)
  · exact hp h1

theorem generate_stops_on_non_model_error_aux
    (f : String → Except LLMError String) (model prompt : String) (e : LLMError)
    (hp : pyStrip prompt ≠ "")
    (hf : f model = Except.error e)
    (hme : e.is_model_error = false) :
    generate_llm_response f model prompt =
      Except.error ⟨"Failed to generate response after trying "
          ++ toString (modelsToTry model).length ++ " model(s). Last error: " ++ e.message,
        false⟩ := by
  unfold generate_llm_response
  rw [if_neg (nonblank_cond prompt hp)]
  obtain ⟨tail, hplan⟩ : ∃ tail, modelsToTry model = model :: tail :=
    ⟨_, modelsToTry_eq model⟩
  rw [hplan]
  simp [tryLoop, hf, hme]

/-- C1 (corrected): when the first candidate fails with a non-model
error (for example the fixed 401 authentication error), no further
candidate is attempted — the outcome is the same for any two gateways
agreeing on the first candidate — but the surfaced failure is a NEW
composite `LLMError` naming the plan length and embedding the original
message, not the original error itself. -/
theorem fallback_non_model_error_stops
    (attempt attempt2 : String → Except LLMError String)
    (model prompt : String) (e : LLMError)
    (hp : pyStrip prompt ≠ "")
    (h : attempt model = Except.error e)
    (h2 : attempt2 model = Except.error e)
    (hme : e.is_model_error = false) :
    generate_llm_response attempt model prompt =
      Except.error ⟨"Failed to generate response after trying "
          ++ toString (modelsToTry model).length ++ " model(s). Last error: " ++ e.message,
        false⟩
    ∧ generate_llm_response attempt2 model prompt = generate_llm_response attempt model prompt := by
  have k1 := generate_stops_on_non_model_error_aux attempt model prompt e hp h hme
  have k2 := generate_stops_on_non_model_error_aux attempt2 model prompt e hp h2 hme
  exact ⟨k1, by rw [k1, k2]⟩

/-- Witness for C1's amended theorem at a concrete input. -/
theorem fallback_non_model_error_stops_witness :
    pyStrip "hello" ≠ "" ∧
    generate_llm_response (fun _ => Except.error { message := "Auth failed", is_model_error := false })
        "xiaomi/mimo-v2-flash:free" "hello" =
      Except.error ⟨"Failed to generate response after trying "
          ++ toString (modelsToTry "xiaomi/mimo-v2-flash:free").length
          ++ " model(s). Last error: " ++ "Auth failed",
        false⟩ :=
  ⟨by decide,
   (fallback_non_model_error_stops
      (fun _ => Except.error { message := "Auth failed", is_model_error := false })
      (fun _ => Except.error { message := "Auth failed", is_model_error := false })
      "xiaomi/mimo-v2-flash:free" "hello" { message := "Auth failed", is_model_error := false }
      (by decide) rfl rfl rfl).1⟩

/-- Counterexample for C1 as stated: with every candidate failing with
the fixed 401 authentication error, the error surfaced to the caller is
NOT that authentication error itself (it is the composite wrapper). -/
theorem fallback_auth_error_not_surfaced_identically :
    generate_llm_response (fun _ => Except.error (handle_error_response 401 "bad key"))
        "xiaomi/mimo-v2-flash:free" "hello"
      ≠ Except.error (handle_error_response 401 "bad key") := by decide

theorem generate_second_success_aux
    (f : String → Except LLMError String) (model prompt m1 : String)
    (rest : List String) (e : LLMError) (t : String)
    (hp : pyStrip prompt ≠ "")
    (hplan : modelsToTry model = model :: m1 :: rest)
    (hf0 : f model = Except.error e)
    (hme : e.is_model_error = true)
    (hf1 : f m1 = Except.ok t) :
    generate_llm_response f model prompt = Except.ok (ensure_markdown_headings t) := by
  have hne : ((model : String) != (modelsToTry model).getLastD "") = true :=
    modelsToTry_head_ne_last model (m1 :: rest) hplan (by simp)
  unfold generate_llm_response
  rw [if_neg (nonblank_cond prompt hp)]
  rw [hplan] at hne ⊢
  simp only [tryLoop, hf0, hf1, hme, hne, Bool.true_and, if_true]

/-- C4 (confirmed): if the first candidate fails with a model error
(`ModelUnavailableError`) and the second candidate succeeds with text
`t`, the gateway returns `ensure_markdown_headings t`, and no candidate
after the second is attempted — the outcome is the same for any two
gateways agreeing on the first two candidates. -/
theorem fallback_second_candidate_success
    (attempt attempt2 : String → Except LLMError String)
    (model prompt m1 : String) (rest : List String) (e : LLMError) (t : String)
    (hp : pyStrip prompt ≠ "")
    (hplan : modelsToTry model = model :: m1 :: rest)
    (h0 : attempt model = Except.error e)
    (hme : e.is_model_error = true)
    (h1 : attempt m1 = Except.ok t)
    (h0b : attempt2 model = Except.error e)
    (h1b : attempt2 m1 = Except.ok t) :
    generate_llm_response attempt model prompt = Except.ok (ensure_markdown_headings t)
    ∧ generate_llm_response attempt2 model prompt = Except.ok (ensure_markdown_headings t) :=
  ⟨generate_second_success_aux attempt model prompt m1 rest e t hp hplan h0 hme h1,
   generate_second_success_aux attempt2 model prompt m1 rest e t hp hplan h0b hme h1b⟩

/-- Witness for C4's theorem at a concrete input. -/
theorem fallback_second_candidate_success_witness :
    modelsToTry "other/model" =
      "other/model" :: "xiaomi/mimo-v2-flash:free"
        :: ["mistralai/devstral-2-2512:free", "tngtech/deepseek-r1t2-chimera:free"] ∧
    generate_llm_response
      (fun s => if s = "other/model"
        then Except.error { message := "model x not found", is_model_error := true }
        else Except.ok "hello")
      "other/model" "hi" = Except.ok (ensure_markdown_headings "hello") :=
  ⟨by decide,
   (fallback_second_candidate_success
      (fun s => if s = "other/model"
        then Except.error { message := "model x not found", is_model_error := true }
        else Except.ok "hello")
      (fun s => if s = "other/model"
        then Except.error { message := "model x not found", is_model_error := true }
        else Except.ok "hello")
      "other/model" "hi" "xiaomi/mimo-v2-flash:free"
      ["mistralai/devstral-2-2512:free", "tngtech/deepseek-r1t2-chimera:free"]
      { message := "model x not found", is_model_error := true } "hello"
      (by decide) (by decide) (by decide) rfl (by decide) (by decide) (by decide)).1⟩

/-! ## The validator (C9) -/

theorem dropWhile_replicate_x (n : Nat) :
    List.dropWhile Char.isWhitespace (List.replicate n 'x') = List.replicate n 'x' := by
  cases n with
  | zero => rfl
  | succ m =>
    rw [List.replicate_succ, List.dropWhile_cons]
    simp [show Char.isWhitespace 'x' = false from rfl]

theorem pyStrip_mk_replicate (n : Nat) :
    pyStrip ⟨List.replicate n 'x'⟩ = (⟨List.replicate n 'x'⟩ : String) := by
  apply str_ext
  show (((List.replicate n 'x').dropWhile Char.isWhitespace).reverse.dropWhile
      Char.isWhitespace).reverse = List.replicate n 'x'
  rw [dropWhile_replicate_x, List.reverse_replicate, dropWhile_replicate_x,
    List.reverse_replicate]

theorem pyStrip_xLong : pyStrip xLong = xLong := pyStrip_mk_replicate 8001

theorem length_mk_replicate (n : Nat) :
    (⟨List.replicate n 'x'⟩ : String).length = n := by
  show (List.replicate n 'x').length = n
  rw [List.length_replicate]

theorem xLong_length : xLong.length = 8001 := length_mk_replicate 8001

theorem pyStrip_xLong_ne : pyStrip xLong ≠ "" := by
  rw [pyStrip_xLong]
  intro h
  have h2 := congrArg String.length h
  rw [xLong_length] at h2
  exact absurd h2 (by decide)

theorem dropWhile_replicate_space (n : Nat) :
    List.dropWhile Char.isWhitespace (List.replicate n ' ') = [] := by
  induction n with
  | zero => rfl
  | succ m ih =>
    rw [List.replicate_succ, List.dropWhile_cons]
    simp [show Char.isWhitespace ' ' = true from rfl, ih]

theorem pyStrip_mk_replicate_space (n : Nat) :
    pyStrip ⟨List.replicate n ' '⟩ = "" := by
  apply str_ext
  show (((List.replicate n ' ').dropWhile Char.isWhitespace).reverse.dropWhile
      Char.isWhitespace).reverse = ("" : String).data
  rw [dropWhile_replicate_space]
  rfl

theorem pyStrip_spaceLong : pyStrip spaceLong = "" := pyStrip_mk_replicate_space 8001

theorem length_mk_replicate_space (n : Nat) :
    (⟨List.replicate n ' '⟩ : String).length = n := by
  show (List.replicate n ' ').length = n
  rw [List.length_replicate]

theorem spaceLong_length : spaceLong.length = 8001 := length_mk_replicate_space 8001

/-- C9 (corrected, amended): `validate_text_input` rejects `None` with a
message containing the field name, rejects whitespace-only input,
rejects with a "too long" message every string of length 8001 or more
WHOSE TRIMMED VALUE IS NON-EMPTY (a whitespace-only string of any length
is rejected by the earlier emptiness check instead, without "too long"),
accepts a normal short string, and in general accepts exactly the
strings that are non-empty after trimming and of length at most 8000. -/
theorem validate_text_input_amended_spec (fn : String) :
    (validate_text_input PyVal.vNone fn).1 = false
    ∧ pyIn fn (validate_text_input PyVal.vNone fn).2 = true
    ∧ (validate_text_input (PyVal.vStr "   ") fn).1 = false
    ∧ (∀ s, pyStrip s ≠ "" → s.length > 8000 →
        (validate_text_input (PyVal.vStr s) fn).1 = false
        ∧ pyIn "too long" (validate_text_input (PyVal.vStr s) fn).2 = true)
    ∧ validate_text_input (PyVal.vStr "ok") fn = (true, "")
    ∧ (∀ s, validate_text_input (PyVal.vStr s) fn = (true, "")
        ↔ (pyStrip s ≠ "" ∧ s.length ≤ 8000)) := by
  refine ⟨rfl, ?_, ?_, ?_, ?_, ?_⟩
  · have hmsg : (validate_text_input PyVal.vNone fn).2 = "Please provide " ++ fn ++ "." := rfl
    rw [hmsg, str_append_assoc]
    exact pyIn_sandwich fn "Please provide " "."
  · simp [validate_text_input, show pyStrip "   " = "" from by decide]
  · intro s h1 h2
    have hval : validate_text_input (PyVal.vStr s) fn =
        (false, "The " ++ fn ++ " is too long. Please shorten it a bit.") := by
      simp [validate_text_input, h1, h2]
    rw [hval]
    refine ⟨rfl, ?_⟩
    rw [str_append_assoc]
    exact pyIn_append_str "too long" "The "
      (fn ++ " is too long. Please shorten it a bit.")
      (pyIn_append_str "too long" fn " is too long. Please shorten it a bit." (by decide))
  · simp [validate_text_input, show ¬(pyStrip "ok" = "") from by decide]
  · intro s
    constructor
    · intro h
      by_cases c1 : pyStrip s = ""
      · simp [validate_text_input, c1] at h
      · by_cases c2 : s.length > 8000
        · simp [validate_text_input, c1, c2] at h
        · exact ⟨c1, Nat.le_of_not_lt c2⟩
    · rintro ⟨h1, h2⟩
      simp [validate_text_input, h1, Nat.not_lt.mpr h2]

/-- Witness for C9's amended theorem: the hypotheses of the universal
"too long" clause discharged at the concrete 8001-character string of
`x` characters, with field name "input". -/
theorem validate_text_input_amended_spec_witness :
    pyStrip xLong ≠ ""
    ∧ xLong.length > 8000
    ∧ ((validate_text_input (PyVal.vStr xLong) "input").1 = false
       ∧ pyIn "too long" (validate_text_input (PyVal.vStr xLong) "input").2 = true) := by
  have hlen : xLong.length > 8000 := by rw [xLong_length]; decide
  obtain ⟨-, -, -, h4, -, -⟩ := validate_text_input_amended_spec "input"
  exact ⟨pyStrip_xLong_ne, hlen, h4 xLong pyStrip_xLong_ne hlen⟩

/-- Counterexample for C9 as stated: the 8001-character whitespace-only
string is a string of length 8001 or more, yet its rejection message is
the emptiness message and does not contain "too long" (validators.py:28
fires before the length check on line 30). -/
theorem validate_whitespace_long_counterexample :
    spaceLong.length = 8001
    ∧ (validate_text_input (PyVal.vStr spaceLong) "input").1 = false
    ∧ pyIn "too long" (validate_text_input (PyVal.vStr spaceLong) "input").2 = false := by
  have hval : validate_text_input (PyVal.vStr spaceLong) "input"
      = (false, "Please enter some " ++ "input" ++ ".") := by
    simp [validate_text_input, pyStrip_spaceLong]
  refine ⟨spaceLong_length, ?_, ?_⟩
  · rw [hval]
  · rw [hval]
    decide

/-! ## The Prompt Builder (C7) -/

theorem pyIn_self_append (pat post : String) : pyIn pat (pat ++ post) = true := by
  show hasSub pat.data (pat ++ post).data = true
  rw [str_data_append]
  exact hasSub_self_append _ _

/-- C7 (corrected, amended): for every `task_type` whose stripped value
(with empty input defaulting to "Explain") misses the instruction
dictionary, `build_text_tutor_prompt` succeeds, its output contains the
"Explain" instruction block, and its output is non-empty. (The claim as
stated — quantifying over raw strings outside the known set — fails for
inputs like `"Quiz "` that strip to a known key.) -/
theorem build_text_tutor_prompt_falls_back_to_explain
    (u lvl tt : String) (hist : List Exchange)
    (h : task_instructions (pyStrip (if tt = "" then "Explain" else tt)) = none) :
    pyIn explain_instruction (build_text_tutor_prompt u lvl tt hist) = true
    ∧ build_text_tutor_prompt u lvl tt hist ≠ "" := by
  constructor
  · simp only [build_text_tutor_prompt, h, Option.getD_none, str_append_assoc]
    repeat first
      | exact pyIn_self_append explain_instruction _
      | apply pyIn_append_str
  · simp only [build_text_tutor_prompt, str_append_assoc]
    exact str_append_ne_empty_left _ _ (by decide)

/-- Witness for C7's amended theorem at a concrete unknown task type. -/
theorem build_text_tutor_prompt_falls_back_to_explain_witness :
    task_instructions (pyStrip (if ("Recap" : String) = "" then "Explain" else "Recap")) = none
    ∧ (pyIn explain_instruction (build_text_tutor_prompt "What is gravity?" "Beginner" "Recap" []) = true
       ∧ build_text_tutor_prompt "What is gravity?" "Beginner" "Recap" [] ≠ "") :=
  ⟨by decide,
   build_text_tutor_prompt_falls_back_to_explain "What is gravity?" "Beginner" "Recap" []
     (by decide)⟩

set_option maxRecDepth 40000 in
/-- Counterexample for C7 as stated: the task type `"Quiz "` is not in
the known set, yet the built prompt does not contain the "Explain"
instruction block (it strips to the known key "Quiz"). -/
theorem build_text_tutor_prompt_quiz_padded_counterexample :
    (("Quiz " : String) ∉ ["Explain", "Examples", "Practice Questions", "Quiz", "Study Plan"])
    ∧ pyIn explain_instruction (build_text_tutor_prompt "q" "Beginner" "Quiz " []) = false := by
  decide

/-! ## Upstream error-body handling (C5) -/

/-- C5 (corrected, amended): for every non-success status and every
extracted body containing "key"/"api"/"auth" (case-insensitive), the
raised error's message is a fixed string that does not depend on the
body: the fixed 401 message, the fixed 429 message, or the generic
authentication message wrapped in the status line. (The raw body can
therefore only appear in the raised error when it happens to be a
substring of that fixed text, as the 3-character body "key" is.) -/
theorem error_body_substituted_fixed_message (status : Nat) (msg : String)
    (_hstatus : status ≠ 200)
    (htrig : (pyIn "key" (pyLower msg) || pyIn "api" (pyLower msg)
        || pyIn "auth" (pyLower msg)) = true) :
    (handle_error_response status msg).message =
      if status = 401 then auth_failed_message
      else if status = 429 then rate_limit_message
      else "OpenRouter API error (status " ++ toString status ++ "): " ++ generic_auth_message := by
  by_cases h1 : status = 401
  · simp [handle_error_response, h1]
  · by_cases h2 : status = 429
    · simp [handle_error_response, h1, h2]
    · simp [handle_error_response, h1, h2, htrig]

/-- Witness for C5's amended theorem at a concrete status and body. -/
theorem error_body_substituted_fixed_message_witness :
    ((500 : Nat) ≠ 200)
    ∧ (pyIn "key" (pyLower "Invalid api key given") = true)
    ∧ (handle_error_response 500 "Invalid api key given").message =
        (if (500 : Nat) = 401 then auth_failed_message
         else if (500 : Nat) = 429 then rate_limit_message
         else "OpenRouter API error (status " ++ toString (500 : Nat) ++ "): "
           ++ generic_auth_message) :=
  ⟨by decide, by decide,
   error_body_substituted_fixed_message 500 "Invalid api key given" (by decide) (by decide)⟩

/-- Counterexample for C5 as stated: the upstream body "key" triggers the
substitution, yet the raised error's message still contains that raw
body (because "key" is a substring of the substituted fixed text). -/
theorem error_body_contains_raw_body_counterexample :
    (pyIn "key" (pyLower "key") = true)
    ∧ pyIn "key" (handle_error_response 400 "key").message = true := by decide

/-! ## The local API-key format check (C10) -/

theorem head?_data_append_lit (x y : String) (c : Char) (rest : List Char)
    (hx : x.data = c :: rest) : (x ++ y).data.head? = some c := by
  rw [str_data_append, hx, List.cons_append, List.head?_cons]

theorem startswith_sk_of_long1 (k : String) (h : pyStartswith k "sk-or-v1-" = true) :
    pyStartswith k "sk-" = true := by
  have hd : ("sk-" : String).data ++ ("or-v1-" : String).data
      = ("sk-or-v1-" : String).data := by decide
  apply matchesAt_of_append ("sk-" : String).data ("or-v1-" : String).data k.data
  rw [hd]
  exact h

theorem startswith_sk_of_long2 (k : String) (h : pyStartswith k "sk-or-v1" = true) :
    pyStartswith k "sk-" = true := by
  have hd : ("sk-" : String).data ++ ("or-v1" : String).data
      = ("sk-or-v1" : String).data := by decide
  apply matchesAt_of_append ("sk-" : String).data ("or-v1" : String).data k.data
  rw [hd]
  exact h

theorem any_prefix_checks_eq_sk (k : String) :
    (valid_prefixes.any fun p => pyStartswith k p) = pyStartswith k "sk-" := by
  cases hc : pyStartswith k "sk-" with
  | true => simp [valid_prefixes, List.any, hc]
  | false =>
    have e1 : pyStartswith k "sk-or-v1-" = false := by
      cases he : pyStartswith k "sk-or-v1-" with
      | false => rfl
      | true =>
        have hh := startswith_sk_of_long1 k he
        rw [hc] at hh
        exact Bool.noConfusion hh
    have e2 : pyStartswith k "sk-or-v1" = false := by
      cases he : pyStartswith k "sk-or-v1" with
      | false => rfl
      | true =>
        have hh := startswith_sk_of_long2 k he
        rw [hc] at hh
        exact Bool.noConfusion hh
    simp [valid_prefixes, List.any, e1, e2, hc]

theorem handle_error_ne_format (s : Nat) (m : String) :
    handle_error_response s m ≠ format_error := by
  intro heq
  have hm := congrArg (fun x => x.message.data.head?) heq
  simp only at hm
  have hfmt : format_error.message.data.head? = some 'I' := by decide
  rw [hfmt] at hm
  by_cases h1 : s = 401
  · have hc : handle_error_response s m
        = { message := auth_failed_message, is_model_error := false } := by
      simp [handle_error_response, h1]
    rw [hc] at hm
    exact absurd hm (by decide)
  · by_cases h2 : s = 429
    · have hc : handle_error_response s m
          = { message := rate_limit_message, is_model_error := false } := by
        simp [handle_error_response, h1, h2]
      rw [hc] at hm
      exact absurd hm (by decide)
    · have hhead : (handle_error_response s m).message.data.head? = some 'O' := by
        simp only [handle_error_response, if_neg h1, if_neg h2]
        rw [str_append_assoc, str_append_assoc]
        exact head?_data_append_lit "OpenRouter API error (status " _ 'O'
          ("penRouter API error (status " : String).data (by decide)
      rw [hhead] at hm
      exact absurd hm (by decide)

/-- C10 (confirmed): with a non-blank key, `openrouter_chat` raises the
key-format error exactly when the trimmed key does not start with
"sk-" — the two longer whitelist entries are redundant because "sk-" is
a prefix of both, so any "sk-"-prefixed key passes the local check. -/
theorem openrouter_chat_key_format_gate (api_key : String) (mne : Bool) (resp : HttpResp)
    (hk : pyStrip api_key ≠ "") :
    (openrouter_chat api_key mne resp = Except.error format_error)
      ↔ pyStartswith (pyStrip api_key) "sk-" = false := by
  simp only [openrouter_chat, if_neg (nonblank_cond api_key hk), any_prefix_checks_eq_sk]
  cases hs : pyStartswith (pyStrip api_key) "sk-" with
  | false => simp
  | true =>
    refine iff_of_false ?_ (by simp)
    intro h
    cases mne with
    | false =>
      simp at h
      exact absurd h (by decide)
    | true =>
      simp only [Bool.not_true, Bool.false_eq_true, if_false] at h
      by_cases h200 : resp.status_code ≠ 200
      · rw [if_pos h200] at h
        simp only [Except.error.injEq] at h
        exact handle_error_ne_format _ _ h
      · rw [if_neg h200] at h
        cases hco : resp.first_choice_content with
        | none =>
          rw [hco] at h
          simp at h
          exact absurd h (by decide)
        | some o =>
          rw [hco] at h
          cases o with
          | none =>
            simp at h
            exact absurd h (by decide)
          | some t =>
            by_cases ht : t = ""
            · rw [ht] at h
              simp at h
              exact absurd h (by decide)
            · simp [ht] at h

/-- Witness for C10's theorem at a concrete non-"sk-" key. -/
theorem openrouter_chat_key_format_gate_witness :
    pyStrip "pk-123" ≠ ""
    ∧ (openrouter_chat "pk-123" true
          { status_code := 200, extracted_error := "", first_choice_content := some (some "hi") }
        = Except.error format_error
      ↔ pyStartswith (pyStrip "pk-123") "sk-" = false) :=
  ⟨by decide,
   openrouter_chat_key_format_gate "pk-123" true
     { status_code := 200, extracted_error := "", first_choice_content := some (some "hi") }
     (by decide)⟩

/-! ## The Image Doubt Solver flow (C8) -/

/-- C8 (confirmed): whenever the image-solver flow reaches OCR (button
clicked, file valid) and OCR yields whitespace-only text, the flow emits
exactly the "no readable text" warning and performs no model call. -/
theorem image_solver_empty_ocr_no_model_call
    (ui : SolverUi) (o : SolverOracles) (t : String)
    (hclick : ui.solve_clicked = true)
    (hvalid : (validate_image_file ui.uploaded_file).1 = true)
    (hocr : o.ocr = Except.ok t)
    (hempty : pyStrip t = "") :
    handle_image_solver_tab ui o
      = [Effect.warn "I couldn't detect any readable text in the image. Please try a clearer photo."]
    ∧ ∀ p, Effect.modelCall p ∉ handle_image_solver_tab ui o := by
  have hmain : handle_image_solver_tab ui o
      = [Effect.warn "I couldn't detect any readable text in the image. Please try a clearer photo."] := by
    simp only [handle_image_solver_tab, hclick, Bool.not_true, Bool.false_eq_true, if_false,
      hvalid, hocr]
    rw [if_pos (Or.inr hempty)]
  refine ⟨hmain, ?_⟩
  intro p hp
  rw [hmain] at hp
  simp at hp

/-- Witness for C8's theorem at a concrete invocation. -/
theorem image_solver_empty_ocr_no_model_call_witness :
    (({ uploaded_file := some "a.png", is_question := true, solve_clicked := true } : SolverUi).solve_clicked = true)
    ∧ (validate_image_file (some "a.png")).1 = true
    ∧ handle_image_solver_tab
        { uploaded_file := some "a.png", is_question := true, solve_clicked := true }
        { ocr := Except.ok "  ", llm := fun _ => Except.ok "x" }
      = [Effect.warn "I couldn't detect any readable text in the image. Please try a clearer photo."] :=
  ⟨rfl, by decide,
   (image_solver_empty_ocr_no_model_call
      { uploaded_file := some "a.png", is_question := true, solve_clicked := true }
      { ocr := Except.ok "  ", llm := fun _ => Except.ok "x" }
      "  " rfl (by decide) rfl (by decide)).1⟩

/-! ## The Text Chat Tutor flow (C2) -/

theorem add_message_map_role (msgs : List Msg) (r c : String) (im : Option (List String)) :
    (add_message msgs r c im).map Msg.role = msgs.map Msg.role ++ [r] := by
  simp [add_message]

/-- C2 (corrected, amended): every invocation of the text-chat flow that
completes successfully appends the user message first; in the no-image
and image-found sub-paths exactly one assistant message follows, but in
the image-requested-with-no-results sub-path TWO assistant messages are
appended (the "couldn't find images" notice and the tutoring response). -/
theorem text_chat_success_appends
    (ui : ChatUi) (o : ChatOracles) (msgs : List Msg) (hist : List Exchange) (input : String)
    (hin : ui.user_input = some input)
    (hc : (handle_text_chat_tab ui o msgs hist).completed = true) :
    ((detect_image_request input = true ∧ (o.fetchImages (o.extractQuery input)).1 = []) →
      (handle_text_chat_tab ui o msgs hist).messages.map Msg.role
        = msgs.map Msg.role ++ ["user", "assistant", "assistant"])
    ∧ (¬(detect_image_request input = true ∧ (o.fetchImages (o.extractQuery input)).1 = []) →
      (handle_text_chat_tab ui o msgs hist).messages.map Msg.role
        = msgs.map Msg.role ++ ["user", "assistant"]) := by
  cases hcc : ui.clear_clicked with
  | true => simp [handle_text_chat_tab, hcc] at hc
  | false =>
    by_cases hi0 : input = ""
    · simp [handle_text_chat_tab, hcc, hin, hi0] at hc
    · by_cases hv : (validate_text_input (PyVal.vStr input) "question/topic").1 = true
      · cases hdet : detect_image_request input with
        | true =>
          by_cases hu : (o.fetchImages (o.extractQuery input)).1 = []
          · cases hl : o.llm (build_text_tutor_prompt input ui.student_level ui.task_type hist) with
            | ok response =>
              refine ⟨fun _ => ?_, fun hcontra => absurd ⟨rfl, hu⟩ hcontra⟩
              simp [handle_text_chat_tab, hcc, hin, hi0, hv, hdet, hu, hl,
                add_message_map_role]
            | error e =>
              simp [handle_text_chat_tab, hcc, hin, hi0, hv, hdet, hu, hl] at hc
          · refine ⟨fun hcontra => absurd hcontra.2 hu, fun _ => ?_⟩
            simp [handle_text_chat_tab, hcc, hin, hi0, hv, hdet, hu, add_message_map_role]
        | false =>
          cases hl : o.llm (build_text_tutor_prompt input ui.student_level ui.task_type hist) with
          | ok response =>
            refine ⟨fun hcontra => absurd hcontra.1 (by simp), fun _ => ?_⟩
            simp [handle_text_chat_tab, hcc, hin, hi0, hv, hdet, hl, add_message_map_role]
          | error e =>
            simp [handle_text_chat_tab, hcc, hin, hi0, hv, hdet, hl] at hc
      · have hv2 : (validate_text_input (PyVal.vStr input) "question/topic").1 = false := by
          cases hvv : (validate_text_input (PyVal.vStr input) "question/topic").1 with
          | false => rfl
          | true => exact absurd hvv hv
        simp [handle_text_chat_tab, hcc, hin, hi0, hv2] at hc

/-- Witness for C2's amended theorem at a concrete successful turn. -/
theorem text_chat_success_appends_witness :
    (handle_text_chat_tab
        { clear_clicked := false, user_input := some "hi", student_level := "Beginner",
          task_type := "Explain" }
        { extractQuery := fun q => q, fetchImages := fun _ => ([], "none"),
          llm := fun _ => Except.ok "resp" } [] []).completed = true
    ∧ (handle_text_chat_tab
        { clear_clicked := false, user_input := some "hi", student_level := "Beginner",
          task_type := "Explain" }
        { extractQuery := fun q => q, fetchImages := fun _ => ([], "none"),
          llm := fun _ => Except.ok "resp" } [] []).messages.map Msg.role
      = ([] : List Msg).map Msg.role ++ ["user", "assistant"] :=
  ⟨by decide,
   (text_chat_success_appends
      { clear_clicked := false, user_input := some "hi", student_level := "Beginner",
        task_type := "Explain" }
      { extractQuery := fun q => q, fetchImages := fun _ => ([], "none"),
        llm := fun _ => Except.ok "resp" } [] [] "hi" rfl (by decide)).2 (by decide)⟩

set_option maxRecDepth 40000 in
/-- Counterexample for C2 as stated: a successful turn in which an image
was requested but none found appends one user message and TWO assistant
messages, not exactly one of each. -/
theorem text_chat_two_assistant_counterexample :
    (handle_text_chat_tab
        { clear_clicked := false, user_input := some "show me an image of gravity",
          student_level := "Beginner", task_type := "Explain" }
        { extractQuery := fun _ => "gravity", fetchImages := fun _ => ([], "none"),
          llm := fun _ => Except.ok "resp" } [] []).completed = true
    ∧ (handle_text_chat_tab
        { clear_clicked := false, user_input := some "show me an image of gravity",
          student_level := "Beginner", task_type := "Explain" }
        { extractQuery := fun _ => "gravity", fetchImages := fun _ => ([], "none"),
          llm := fun _ => Except.ok "resp" } [] []).messages.map Msg.role
      = ["user", "assistant", "assistant"] := by decide

end StudyBuddy
